import Mathlib

/-!
Shallow embedding of `stcat` (src/src/main.rs): the symbol classifier that
builds the id → message table from an ELF symbol table, and the stream
decoder that turns a byte stream into formatted log lines.
-/

/-- Log level, mirroring `enum Level { Trace, Debug, Info, Warn, Error }`
(main.rs lines 28-35).  Rust's derived `Ord` orders constructors by
declaration order, so `Trace` is least and `Error` is greatest. -/
inductive Level where
  | Trace
  | Debug
  | Info
  | Warn
  | Error
deriving DecidableEq, Repr, Fintype

/-- Discriminant of a `Level` in declaration order, the key of the derived
`Ord` instance in the Rust source. -/
def Level.toNat : Level → Nat
  | .Trace => 0
  | .Debug => 1
  | .Info => 2
  | .Warn => 3
  | .Error => 4

/-- The strict order on `Level` derived in the source (`#[derive(Ord)]`):
comparison of discriminants in declaration order. -/
def Level.lt (a b : Level) : Prop := a.toNat < b.toNat

instance (a b : Level) : Decidable (Level.lt a b) := by
  unfold Level.lt; infer_instance

/-- `Display` impl for `Level` (main.rs lines 37-47). -/
def Level.display : Level → String
  | .Trace => "TRACE"
  | .Debug => "DEBUG"
  | .Info => "INFO"
  | .Warn => "WARN"
  | .Error => "ERROR"

/-- Verbosity rank of a level: `Trace` is the most verbose, `Error` the
least.  This is the spec-side notion used to phrase the filter direction;
it is the reverse of the discriminant order. -/
def Level.verbosity : Level → Nat
  | .Trace => 4
  | .Debug => 3
  | .Info => 2
  | .Warn => 1
  | .Error => 0

/-- `struct Message` (main.rs lines 49-52): a decoded log message. -/
structure Message where
  level : Level
  string : String
deriving DecidableEq, Repr

/-- One symbol-table entry as the classifier reads it through `xmas_elf`:
`get_name` may fail (modelled as `Except`), `value()` is a u64 address,
`shndx()` the section index, `info()` the raw info byte. -/
structure Entry where
  name : Except String String
  value : Nat
  shndx : Nat
  info : Nat

/-- `entry.get_name(&elf) == Ok(s)`: a failed name lookup compares unequal
to every `Ok` name (main.rs lines 98, 125-142). -/
def nameIs (e : Entry) (s : String) : Bool :=
  match e.name with
  | .ok n => n = s
  | .error _ => false

/-- Outcome of running the classifier: a value, a returned error (the
`error_chain` strings built by `ok_or`/`bail!`), or a panic
(`unreachable!()`). -/
inductive RunResult (α : Type) where
  | ok : α → RunResult α
  | err : String → RunResult α
  | panic : RunResult α
deriving DecidableEq, Repr

/-- Whether a `RunResult` is a successful value. -/
def RunResult.isOk {α : Type} : RunResult α → Bool
  | .ok _ => true
  | _ => false

/-- The ten tier boundaries gathered by the classifier: start/end address
of each level's message range (main.rs lines 96-155). -/
structure Boundaries where
  strace : Nat
  etrace : Nat
  sdebug : Nat
  edebug : Nat
  sinfo : Nat
  einfo : Nat
  swarn : Nat
  ewarn : Nat
  serror : Nat
  eerror : Nat
deriving DecidableEq, Repr

/-- The if-chain classifying a message address into a tier
(main.rs lines 163-175).  `none` is the `unreachable!()` arm. -/
def classifyValue (b : Boundaries) (value : Nat) : Option Level :=
  if b.strace ≤ value ∧ value < b.etrace then some .Trace
  else if b.sdebug ≤ value ∧ value < b.edebug then some .Debug
  else if b.sinfo ≤ value ∧ value < b.einfo then some .Info
  else if b.swarn ≤ value ∧ value < b.ewarn then some .Warn
  else if b.serror ≤ value ∧ value < b.eerror then some .Error
  else none

/-- `entries.iter().find(|e| e.get_name(&elf) == Ok("_sstlog_trace"))`
(main.rs lines 96-100): the anchor symbol yields `strace` and the stlog
section index. -/
def findAnchor : List Entry → Option (Nat × Nat)
  | [] => none
  | e :: es =>
    if nameIs e "_sstlog_trace" then some (e.value, e.shndx) else findAnchor es

/-- The nine optional boundary values accumulated by the scan loop
(main.rs lines 102-110). -/
structure ScanBounds where
  etrace : Option Nat := none
  sdebug : Option Nat := none
  edebug : Option Nat := none
  sinfo : Option Nat := none
  einfo : Option Nat := none
  swarn : Option Nat := none
  ewarn : Option Nat := none
  serror : Option Nat := none
  eerror : Option Nat := none

/-- Body of the scan loop (main.rs lines 115-145): within the anchor's
section, an entry with info byte `MAGIC = 1` is an unclassified message;
otherwise its name is matched against the remaining sentinel names. -/
def scanStep (shndx : Nat) (acc : ScanBounds × List Entry) (e : Entry) :
    ScanBounds × List Entry :=
  let (b, msgs) := acc
  if e.shndx = shndx then
    if e.info = 1 then
      (b, msgs ++ [e])
    else if nameIs e "_estlog_trace" then ({ b with etrace := some e.value }, msgs)
    else if nameIs e "_sstlog_debug" then ({ b with sdebug := some e.value }, msgs)
    else if nameIs e "_estlog_debug" then ({ b with edebug := some e.value }, msgs)
    else if nameIs e "_sstlog_info" then ({ b with sinfo := some e.value }, msgs)
    else if nameIs e "_estlog_info" then ({ b with einfo := some e.value }, msgs)
    else if nameIs e "_sstlog_warn" then ({ b with swarn := some e.value }, msgs)
    else if nameIs e "_estlog_warn" then ({ b with ewarn := some e.value }, msgs)
    else if nameIs e "_sstlog_error" then ({ b with serror := some e.value }, msgs)
    else if nameIs e "_estlog_error" then ({ b with eerror := some e.value }, msgs)
    else (b, msgs)
  else (b, msgs)

/-- The full scan over all entries (main.rs lines 115-145). -/
def scanSection (shndx : Nat) (entries : List Entry) : ScanBounds × List Entry :=
  entries.foldl (scanStep shndx) ({}, [])

/-- `opt.ok_or("<name> symbol not found")?` (main.rs lines 147-155). -/
def requireSym (o : Option Nat) (nm : String) : Except String Nat :=
  match o with
  | some v => .ok v
  | none => .error (nm ++ " symbol not found")

/-- The chain of `ok_or` checks turning scanned options into the boundary
record, in source order (main.rs lines 147-155). -/
def resolveBounds (strace : Nat) (sb : ScanBounds) : Except String Boundaries := do
  let etrace ← requireSym sb.etrace "_estlog_trace"
  let sdebug ← requireSym sb.sdebug "_sstlog_debug"
  let edebug ← requireSym sb.edebug "_estlog_debug"
  let sinfo ← requireSym sb.sinfo "_sstlog_info"
  let einfo ← requireSym sb.einfo "_estlog_info"
  let swarn ← requireSym sb.swarn "_sstlog_warn"
  let ewarn ← requireSym sb.ewarn "_estlog_warn"
  let serror ← requireSym sb.serror "_sstlog_error"
  let eerror ← requireSym sb.eerror "_estlog_error"
  pure ⟨strace, etrace, sdebug, edebug, sinfo, einfo, swarn, ewarn, serror, eerror⟩

/-- `HashMap::insert`: replaces the value of an existing key, otherwise
adds the binding (last write wins). -/
def insertT (t : List (Nat × Message)) (k : Nat) (v : Message) :
    List (Nat × Message) :=
  match t with
  | [] => [(k, v)]
  | (k', v') :: rest =>
    if k = k' then (k, v) :: rest else (k', v') :: insertT rest k v

/-- `HashMap::get`. -/
def lookupT (t : List (Nat × Message)) (k : Nat) : Option Message :=
  match t with
  | [] => none
  | (k', v') :: rest => if k = k' then some v' else lookupT rest k

/-- The table-building loop over the unclassified messages
(main.rs lines 160-184): classify the value (`unreachable!()` if no tier
matches), then insert `(value, Message { level, string: get_name? })`,
propagating a name-lookup failure as an error. -/
def buildTable (b : Boundaries) :
    List Entry → List (Nat × Message) → RunResult (List (Nat × Message))
  | [], acc => .ok acc
  | e :: es, acc =>
    match classifyValue b e.value with
    | none => .panic
    | some lvl =>
      match e.name with
      | .error s => .err s
      | .ok n => buildTable b es (insertT acc e.value ⟨lvl, n⟩)

/-- The whole symbol classifier (main.rs lines 96-186): find the
`_sstlog_trace` anchor, scan the anchor's section for sentinels and
messages, require all nine remaining sentinels, then build the table. -/
def classify (entries : List Entry) : RunResult (List (Nat × Message)) :=
  match findAnchor entries with
  | none => .err "_sstlog_trace symbol not found"
  | some (strace, shndx) =>
    let (sb, msgs) := scanSection shndx entries
    match resolveBounds strace sb with
    | .error s => .err s
    | .ok b => buildTable b msgs []

/-- `.symtab` section data as materialized by `xmas_elf`
(main.rs lines 92-95): the code destructures only `SymbolTable32`. -/
inductive SectionData where
  | SymbolTable32 : List Entry → SectionData
  | SymbolTable64 : List Entry → SectionData
  | Other : SectionData

/-- The `if let SectionData::SymbolTable32(entries) = data { … } else
{ unreachable!() }` branch (main.rs lines 95-189). -/
def tableFromSection (d : SectionData) : RunResult (List (Nat × Message)) :=
  match d with
  | .SymbolTable32 entries => classify entries
  | _ => .panic

/-- The severity filter `message.level >= requested_level`
(main.rs line 206), via the derived discriminant order. -/
def passes (requested : Level) (lvl : Level) : Bool :=
  requested.toNat ≤ lvl.toNat

/-- `writeln!(stdout, "{} {}", message.level, message.string)`
(main.rs line 207). -/
def renderLine (m : Message) : String :=
  m.level.display ++ " " ++ m.string

/-- `writeln!(stderr, "unknown message id {}", byte)` (main.rs line 211). -/
def unknownLine (id0 : Nat) : String :=
  "unknown message id " ++ toString id0

/-- The decode loop over already-widened ids (main.rs lines 202-215),
returning the (stdout, stderr) line lists in emission order. -/
def decode (table : List (Nat × Message)) (requested : Level) :
    List Nat → List String × List String
  | [] => ([], [])
  | b :: bs =>
    match lookupT table b with
    | some m =>
      if passes requested m.level then
        (renderLine m :: (decode table requested bs).1, (decode table requested bs).2)
      else decode table requested bs
    | none =>
      ((decode table requested bs).1, unknownLine b :: (decode table requested bs).2)

/-- The stream decoder on raw bytes: each byte is widened to the table's
key type (`byte as u64`, main.rs line 203) before lookup. -/
def decodeStream (table : List (Nat × Message)) (requested : Level)
    (bytes : List (Fin 256)) : List String × List String :=
  decode table requested (bytes.map Fin.val)

/-- `requested_level` from the count of `-d` occurrences
(main.rs lines 76-80): 0 → Info, 1 → Debug, otherwise Trace. -/
def requestedLevel : Nat → Level
  | 0 => .Info
  | 1 => .Debug
  | _ => .Trace

/-- Convenience constructor for a symbol-table entry whose name lookup
succeeds. -/
def mkE (n : String) (v : Nat) (sh : Nat) (i : Nat) : Entry := ⟨.ok n, v, sh, i⟩

/-- The spec's round-trip symbol set, with the sentinel names the spec
uses (`__stlog_warning_start__` and friends) and the five `Object`-typed
(info byte 1) message symbols, all in one section. -/
def c1SpecEntries : List Entry :=
  [ mkE "__stlog_warning_start__" 100 7 0,
    mkE "__stlog_info_start__" 200 7 0,
    mkE "__stlog_debug_start__" 300 7 0,
    mkE "__stlog_trace_start__" 400 7 0,
    mkE "boot" 50 7 1,
    mkE "low batt" 150 7 1,
    mkE "heartbeat" 250 7 1,
    mkE "tick" 350 7 1,
    mkE "verbose dump" 450 7 1 ]

/-- The same five messages under the sentinel convention the source
actually implements: consecutive `_s…`/`_e…` start/end pairs per level,
with error at the lowest addresses and trace at the highest. -/
def c1CodeEntries : List Entry :=
  [ mkE "_sstlog_trace" 400 7 0,
    mkE "_estlog_trace" 500 7 0,
    mkE "_sstlog_debug" 300 7 0,
    mkE "_estlog_debug" 400 7 0,
    mkE "_sstlog_info" 200 7 0,
    mkE "_estlog_info" 300 7 0,
    mkE "_sstlog_warn" 100 7 0,
    mkE "_estlog_warn" 200 7 0,
    mkE "_sstlog_error" 0 7 0,
    mkE "_estlog_error" 100 7 0,
    mkE "boot" 50 7 1,
    mkE "low batt" 150 7 1,
    mkE "heartbeat" 250 7 1,
    mkE "tick" 350 7 1,
    mkE "verbose dump" 450 7 1 ]

/-- A symbol set with all ten sentinels present but every tier interval
empty (`[0, 0)`), plus one message at address 5: its address matches no
tier. -/
def c3Entries : List Entry :=
  [ mkE "_sstlog_trace" 0 7 0,
    mkE "_estlog_trace" 0 7 0,
    mkE "_sstlog_debug" 0 7 0,
    mkE "_estlog_debug" 0 7 0,
    mkE "_sstlog_info" 0 7 0,
    mkE "_estlog_info" 0 7 0,
    mkE "_sstlog_warn" 0 7 0,
    mkE "_estlog_warn" 0 7 0,
    mkE "_sstlog_error" 0 7 0,
    mkE "_estlog_error" 0 7 0,
    mkE "boom" 5 7 1 ]

/-- A symbol set containing the anchor and the first three sentinels the
resolver checks, but no `_sstlog_info`. -/
def c4Entries : List Entry :=
  [ mkE "_sstlog_trace" 400 7 0, mkE "_estlog_trace" 500 7 0,
    mkE "_sstlog_debug" 300 7 0, mkE "_estlog_debug" 400 7 0 ]

/-- Boundaries laid out as consecutive chained intervals, error range
lowest and trace range highest, matching the layout the producing
toolchain emits. -/
def chainedB (b : Boundaries) : Prop :=
  b.serror ≤ b.eerror ∧ b.eerror = b.swarn ∧ b.swarn ≤ b.ewarn ∧
  b.ewarn = b.sinfo ∧ b.sinfo ≤ b.einfo ∧ b.einfo = b.sdebug ∧
  b.sdebug ≤ b.edebug ∧ b.edebug = b.strace ∧ b.strace ≤ b.etrace

instance (b : Boundaries) : Decidable (chainedB b) := by
  unfold chainedB; infer_instance

/-- The spec-side filter direction ("no more verbose than the threshold")
coincides with the source's `message.level >= requested_level` test. -/
theorem verb_le_iff_passes :
    ∀ a b : Level, (Level.verbosity a ≤ Level.verbosity b) ↔ passes b a = true := by
  decide

/-- Filtering small keys commutes with table lookup at a small key. -/
theorem lookupT_filter_small (t : List (Nat × Message)) (k : Nat) (hk : k < 256) :
    lookupT (t.filter fun p => decide (p.1 < 256)) k = lookupT t k := by
  induction t with
  | nil => rfl
  | cons hd tl ih =>
    obtain ⟨k', v'⟩ := hd
    by_cases hk' : k' < 256
    · by_cases he : k = k' <;> simp [List.filter_cons, lookupT, hk', he, ih]
    · have hne : k ≠ k' := by omega
      simp [List.filter_cons, lookupT, hk', hne, ih]

/-- When the scan found `_estlog_trace`, `_sstlog_debug` and
`_estlog_debug` but not `_sstlog_info`, the boundary resolver stops at
the `_sstlog_info` check. -/
theorem resolveBounds_sinfo_missing (strace : Nat) (sb : ScanBounds)
    (x y z : Nat) (h1 : sb.etrace = some x) (h2 : sb.sdebug = some y)
    (h3 : sb.edebug = some z) (h4 : sb.sinfo = none) :
    resolveBounds strace sb = Except.error "_sstlog_info symbol not found" := by
  simp only [resolveBounds, requireSym, h1, h2, h3, h4]
  rfl

/-- C1 counterexample: on the spec's symbol set (sentinels named
`__stlog_warning_start__` etc.) the classifier does not build a table at
all — the code looks for the anchor `_sstlog_trace`, finds no entry of
that name, and fails. -/
theorem c1_spec_symbol_set_fails :
    classify c1SpecEntries = RunResult.err "_sstlog_trace symbol not found" := by
  decide

/-- C1 amended: with the sentinel convention the code implements —
start/end pairs `_sstlog_error`=0, `_estlog_error`=100, `_sstlog_warn`=100,
`_estlog_warn`=200, `_sstlog_info`=200, `_estlog_info`=300,
`_sstlog_debug`=300, `_estlog_debug`=400, `_sstlog_trace`=400,
`_estlog_trace`=500 — building the table from messages at 50, 150, 250,
350, 450 succeeds and yields exactly 50→(Error,"boot"),
150→(Warn,"low batt"), 250→(Info,"heartbeat"), 350→(Debug,"tick"),
450→(Trace,"verbose dump"). -/
theorem c1_roundtrip_code_symbols :
    classify c1CodeEntries = RunResult.ok
      [(50, ⟨Level.Error, "boot"⟩), (150, ⟨Level.Warn, "low batt"⟩),
       (250, ⟨Level.Info, "heartbeat"⟩), (350, ⟨Level.Debug, "tick"⟩),
       (450, ⟨Level.Trace, "verbose dump"⟩)] := by
  decide

/-- C2 counterexample: with the five tier intervals laid out
consecutively over [0, 500) — boundaries that are monotonically ordered
in the claim's sense — the address 500 falls in no tier: the code's
classification assigns it no severity, so the five intervals do not
partition all of [0, +∞). -/
theorem c2_no_tier_above_etrace :
    classifyValue ⟨400, 500, 300, 400, 200, 300, 100, 200, 0, 100⟩ 500 = none := by
  decide

/-- C2 amended: the classifier tests ten boundaries (a start/end pair per
level, main.rs lines 163-175), not four.  When the five intervals are
chained consecutively (error lowest, trace highest), an address is
assigned a severity exactly when it lies in that severity's half-open
interval — so each address gets at most one tier, the five intervals
partition [serror, etrace), and every address below serror or at or
above etrace is assigned none (the `unreachable!()` arm). -/
theorem c2_tier_partition_chained (b : Boundaries) (h : chainedB b) (a : Nat) :
    (classifyValue b a = some Level.Error ↔ b.serror ≤ a ∧ a < b.eerror) ∧
    (classifyValue b a = some Level.Warn ↔ b.swarn ≤ a ∧ a < b.ewarn) ∧
    (classifyValue b a = some Level.Info ↔ b.sinfo ≤ a ∧ a < b.einfo) ∧
    (classifyValue b a = some Level.Debug ↔ b.sdebug ≤ a ∧ a < b.edebug) ∧
    (classifyValue b a = some Level.Trace ↔ b.strace ≤ a ∧ a < b.etrace) ∧
    (classifyValue b a = none ↔ a < b.serror ∨ b.etrace ≤ a) := by
  obtain ⟨h1, h2, h3, h4, h5, h6, h7, h8, h9⟩ := h
  unfold classifyValue
  split_ifs with t1 t2 t3 t4 t5 <;>
    refine ⟨?_, ?_, ?_, ?_, ?_, ?_⟩ <;> simp <;> omega

/-- C2 witness: the chained boundary tuple (0,100,…,500) classifies
address 450 as Trace. -/
theorem c2_tier_partition_chained_witness :
    classifyValue ⟨400, 500, 300, 400, 200, 300, 100, 200, 0, 100⟩ 450 = some Level.Trace :=
  ((c2_tier_partition_chained ⟨400, 500, 300, 400, 200, 300, 100, 200, 0, 100⟩
    (by decide) 450).2.2.2.2.1).mpr (by decide)

/-- C3 counterexample: a concrete input whose message address (5) matches
no tier makes the whole classification end in a panic (`unreachable!()`),
not in a returned `InvalidAddress` error. -/
theorem c3_classify_panics_not_err : classify c3Entries = RunResult.panic := by
  decide

/-- C3 amended: when a message entry's address falls into none of the
severity tiers, the table-building loop panics via `unreachable!()`
(modelled as `RunResult.panic`) — no tier is guessed, but the failure is
a panic, not a returned error. -/
theorem c3_unclassified_panics (b : Boundaries) (e : Entry) (es : List Entry)
    (acc : List (Nat × Message)) (h : classifyValue b e.value = none) :
    buildTable b (e :: es) acc = RunResult.panic := by
  simp only [buildTable, h]

/-- C3 witness: with all-empty tier intervals, the message at address 5
makes table building panic. -/
theorem c3_unclassified_panics_witness :
    buildTable ⟨0, 0, 0, 0, 0, 0, 0, 0, 0, 0⟩ [mkE "boom" 5 7 1] [] = RunResult.panic :=
  c3_unclassified_panics ⟨0, 0, 0, 0, 0, 0, 0, 0, 0, 0⟩ (mkE "boom" 5 7 1) [] []
    (by decide)

/-- C4 counterexample: a symbol set with no entry named
`__stlog_info_start__` anywhere on which classification nevertheless
succeeds — the code never looks for that name. -/
theorem c4_spec_symbol_absent_still_ok :
    (c1CodeEntries.all fun e => !(nameIs e "__stlog_info_start__")) = true ∧
    (classify c1CodeEntries).isOk = true := by decide

/-- C4 amended: the info-tier sentinel the code requires is named
`_sstlog_info`, and the sentinels are checked in a fixed order
(`_estlog_trace`, `_sstlog_debug`, `_estlog_debug`, `_sstlog_info`, …):
whenever the anchor is found and the scan found the three
earlier-checked sentinels but no `_sstlog_info` in the anchor's section,
classification fails with exactly the error
`_sstlog_info symbol not found`. -/
theorem c4_missing_sinfo_error (entries : List Entry) (strace shndx x y z : Nat)
    (ha : findAnchor entries = some (strace, shndx))
    (h1 : (scanSection shndx entries).1.etrace = some x)
    (h2 : (scanSection shndx entries).1.sdebug = some y)
    (h3 : (scanSection shndx entries).1.edebug = some z)
    (h4 : (scanSection shndx entries).1.sinfo = none) :
    classify entries = RunResult.err "_sstlog_info symbol not found" := by
  unfold classify
  rw [ha]
  dsimp only
  rw [resolveBounds_sinfo_missing strace _ x y z h1 h2 h3 h4]

/-- C4 witness: `c4Entries` has the anchor and the three earlier-checked
sentinels but no `_sstlog_info`, and classification reports exactly that
name. -/
theorem c4_missing_sinfo_error_witness :
    classify c4Entries = RunResult.err "_sstlog_info symbol not found" :=
  c4_missing_sinfo_error c4Entries 400 7 500 300 400 rfl rfl rfl rfl rfl

/-- C5: for a byte whose id is found in the table, the decoder emits the
line `<LEVEL> <content>` on stdout exactly when the message's severity is
no more verbose than the filter threshold, and otherwise emits nothing
for that byte (no output line, no error line); Error is no more verbose
than every threshold, and Trace is no more verbose than the threshold
only when the threshold is Trace. -/
theorem c5_filter_direction (table : List (Nat × Message)) (req : Level)
    (b : Fin 256) (bs : List (Fin 256)) (m : Message)
    (h : lookupT table b.val = some m) :
    (decodeStream table req (b :: bs) =
      if Level.verbosity m.level ≤ Level.verbosity req then
        (renderLine m :: (decodeStream table req bs).1, (decodeStream table req bs).2)
      else decodeStream table req bs) ∧
    (∀ r : Level, Level.verbosity Level.Error ≤ Level.verbosity r) ∧
    (∀ r : Level, (Level.verbosity Level.Trace ≤ Level.verbosity r ↔ r = Level.Trace)) := by
  refine ⟨?_, by decide, by decide⟩
  simp only [decodeStream, List.map_cons, decode, h]
  by_cases hp : passes req m.level = true
  · rw [if_pos hp, if_pos ((verb_le_iff_passes m.level req).mpr hp)]
  · rw [if_neg hp, if_neg (fun hv => hp ((verb_le_iff_passes m.level req).mp hv))]

/-- C5 witness: the Error message at id 5 passes the Info threshold and
is rendered as `ERROR boot`. -/
theorem c5_filter_direction_witness :
    lookupT [(5, ⟨Level.Error, "boot"⟩)] (5 : Fin 256).val = some ⟨Level.Error, "boot"⟩ ∧
    decodeStream [(5, ⟨Level.Error, "boot"⟩)] Level.Info [(5 : Fin 256)] =
      (["ERROR boot"], []) := by
  refine ⟨by decide, ?_⟩
  have h := (c5_filter_direction [(5, ⟨Level.Error, "boot"⟩)] Level.Info (5 : Fin 256) []
    ⟨Level.Error, "boot"⟩ (by decide)).1
  rw [if_pos (by decide)] at h
  exact h.trans (by decide)

/-- C6 counterexample: in the order the source derives, `Error < Warn` is
false (the order is `Trace < Debug < Info < Warn < Error`), and Error's
ordinal is not the lowest. -/
theorem c6_order_reversed_cex :
    ¬ Level.lt Level.Error Level.Warn ∧ Level.toNat Level.Error ≠ 0 := by decide

/-- C6 amended: `Level` is totally ordered by the derived
declaration-order comparison with `Trace < Debug < Info < Warn < Error` —
increasing severity, decreasing verbosity, Error having the highest
ordinal (4) — and the severity filter is exactly non-strict comparison in
this order: a message passes iff its level is not below the requested
level. -/
theorem c6_level_total_order :
    (∀ a b : Level, Level.lt a b ∨ a = b ∨ Level.lt b a) ∧
    (∀ a : Level, ¬ Level.lt a a) ∧
    (∀ a b c : Level, Level.lt a b → Level.lt b c → Level.lt a c) ∧
    (Level.lt Level.Trace Level.Debug ∧ Level.lt Level.Debug Level.Info ∧
     Level.lt Level.Info Level.Warn ∧ Level.lt Level.Warn Level.Error) ∧
    Level.toNat Level.Error = 4 ∧
    (∀ req lvl : Level, (passes req lvl = true ↔ ¬ Level.lt lvl req)) := by decide

/-- C7: a byte whose id is not a key of the table adds exactly the one
diagnostic line `unknown message id <id>` to the error channel, adds
nothing to the output channel, and the rest of the stream is decoded
exactly as it would be on its own — an unresolved id never terminates
decoding. -/
theorem c7_unknown_id_diagnostic (table : List (Nat × Message)) (req : Level)
    (b : Fin 256) (bs : List (Fin 256)) (h : lookupT table b.val = none) :
    decodeStream table req (b :: bs) =
      ((decodeStream table req bs).1,
       ("unknown message id " ++ toString b.val) :: (decodeStream table req bs).2) := by
  simp only [decodeStream, List.map_cons, decode, h, unknownLine]

/-- C7 witness: id 99 is absent from the table; decoding reports it on
the error channel and emits no output line. -/
theorem c7_unknown_id_diagnostic_witness :
    decodeStream [(5, ⟨Level.Error, "boot"⟩)] Level.Trace [(99 : Fin 256)] =
      ([], ["unknown message id 99"]) := by
  have h := c7_unknown_id_diagnostic [(5, ⟨Level.Error, "boot"⟩)] Level.Trace
    (99 : Fin 256) [] (by decide)
  exact h.trans (by decide)

/-- C8 counterexample: with no `-d` option the requested level is Info,
not Trace, and a Trace message found in the table is not emitted under
that default. -/
theorem c8_default_is_not_trace :
    requestedLevel 0 = Level.Info ∧ requestedLevel 0 ≠ Level.Trace ∧
    decodeStream [(5, ⟨Level.Trace, "tick"⟩)] (requestedLevel 0) [(5 : Fin 256)] =
      ([], []) := by decide

/-- C8 amended: the filter is set by the count of `-d` occurrences and
defaults to Info (one `-d` gives Debug, two or more give Trace); under
the default only Info, Warn and Error messages pass the filter, so Debug
and Trace messages found in the table are not emitted. -/
theorem c8_default_is_info (n : Nat) (hn : 2 ≤ n) :
    requestedLevel 0 = Level.Info ∧ requestedLevel 1 = Level.Debug ∧
    requestedLevel n = Level.Trace ∧
    (∀ lvl : Level, (passes (requestedLevel 0) lvl = true ↔
      (lvl = Level.Info ∨ lvl = Level.Warn ∨ lvl = Level.Error))) := by
  refine ⟨rfl, rfl, ?_, by decide⟩
  match n, hn with
  | n + 2, _ => rfl

/-- C8 witness: two `-d` occurrences give Trace. -/
theorem c8_default_is_info_witness :
    2 ≤ 2 ∧ requestedLevel 2 = Level.Trace :=
  ⟨by decide, (c8_default_is_info 2 (by decide)).2.2.1⟩

/-- C9: every input byte is widened to the table's key type before
lookup, so only ids 0–255 are ever looked up: removing every table entry
whose address exceeds 255 changes neither the output nor the error lines
of any byte stream — such entries can never be emitted.  (Determinism is
immediate: `decodeStream` is a pure function of the table, the threshold
and the stream.) -/
theorem c9_only_byte_ids_looked_up (table : List (Nat × Message)) (req : Level)
    (bytes : List (Fin 256)) :
    decodeStream table req bytes =
      decodeStream (table.filter fun p => decide (p.1 < 256)) req bytes := by
  simp only [decodeStream]
  induction bytes with
  | nil => rfl
  | cons b bs ih =>
    simp only [List.map_cons, decode, lookupT_filter_small table b.val b.isLt, ih]

/-- C10: if the `.symtab` section's data materializes as anything other
than a 32-bit symbol table — a 64-bit symbol table or any other section
kind — the table-building branch panics via `unreachable!()` instead of
returning a descriptive error. -/
theorem c10_non_symtab32_panics :
    (∀ es, tableFromSection (SectionData.SymbolTable64 es) = RunResult.panic) ∧
    tableFromSection SectionData.Other = RunResult.panic :=
  ⟨fun _ => rfl, rfl⟩
